import Mathlib

/-!
# Verification of the GA dashboard analytics engine

A shallow embedding of the metrics-aggregation and insight-synthesis engine
(`src/analytics.py` and `src/dashboard.py`).  Numeric cell values are embedded
as rationals (`ℚ`); a column of a data frame is `Option (List ℚ)` — `none`
when the column is absent from the frame, `some xs` with one entry per row
otherwise.  A cell that holds pandas `NaN` is embedded as an absent `Option`
value at the places where the source produces `NaN` (`replace(0, np.nan)`
division guards).  Fallible pandas operations (unguarded column selection,
which raises `KeyError`) are embedded in `Except`.

Python's `round(x, 2)` rounds half to even on binary floats; the embedding
`round2` rounds half up.  The two differ only at exact `.005` ties, which no
statement or input below exercises.
-/

namespace GADash

/-- `round(x, 2)`: round to 2 decimal places. -/
def round2 (q : ℚ) : ℚ := (round (q * 100) : ℤ) / 100

/-- A numeric data-frame column: `none` if the column is absent. -/
abbrev Col := Option (List ℚ)

/-- `AnalyticsEngine._safe_sum`:
`float(self.data[col].sum()) if col in self.data.columns else 0`. -/
def safe_sum (col : Col) : ℚ :=
  match col with
  | some xs => xs.sum
  | none => 0

/-- `AnalyticsEngine._safe_mean`:
`float(self.data[col].mean()) if col in self.data.columns else 0`.
(pandas mean of an empty column is `NaN`; theorems below only use nonempty
columns, where the embedding is exact.) -/
def safe_mean (col : Col) : ℚ :=
  match col with
  | some xs => xs.sum / xs.length
  | none => 0

/-- `AnalyticsEngine._calculate_pages_per_session`: requires both columns
present and `total_sessions > 0`, else `0`. -/
def calculate_pages_per_session (pageviews sessions : Col) : ℚ :=
  match pageviews, sessions with
  | some pv, some ss => if 0 < ss.sum then round2 (pv.sum / ss.sum) else 0
  | _, _ => 0

/-- `AnalyticsEngine._calculate_conversion_rate`: requires both columns
present and `total_sessions > 0`, else `0`. -/
def calculate_conversion_rate (conversions sessions : Col) : ℚ :=
  match conversions, sessions with
  | some cv, some ss => if 0 < ss.sum then round2 (cv.sum / ss.sum * 100) else 0
  | _, _ => 0

/-- One raw row of the dataset on the source/medium analysis path:
the grouping key value together with the numeric cells used by the
per-group derived metrics. -/
structure SRow where
  source : String
  sessions : ℚ
  conversions : ℚ
deriving DecidableEq

/-- Per-group sum of `sessions` in `analyze_source_medium`'s
`groupby(group_col).agg({'sessions': 'sum'})`. -/
def groupSessions (rows : List SRow) (k : String) : ℚ :=
  ((rows.filter (fun r => r.source = k)).map (fun r => r.sessions)).sum

/-- Per-group sum of `conversions`. -/
def groupConversions (rows : List SRow) (k : String) : ℚ :=
  ((rows.filter (fun r => r.source = k)).map (fun r => r.conversions)).sum

/-- Per-group derived metric of `analyze_source_medium`:
`grouped['conversion_rate'] = (grouped['conversions'] / grouped['sessions'].replace(0, np.nan)) * 100`.
A group whose sessions sum is exactly `0` gets `NaN` (embedded `none`). -/
def group_conversion_rate (rows : List SRow) (k : String) : Option ℚ :=
  if groupSessions rows k = 0 then none
  else some (groupConversions rows k / groupSessions rows k * 100)

/-- Insert into a value-descending list of (key, value) pairs. -/
def insertDesc (x : String × ℚ) : List (String × ℚ) → List (String × ℚ)
  | [] => [x]
  | y :: ys => if y.2 ≤ x.2 then x :: y :: ys else y :: insertDesc x ys

/-- Sort a (key, value) list by value descending (`sort_values(ascending=False)`). -/
def sortDesc : List (String × ℚ) → List (String × ℚ)
  | [] => []
  | x :: xs => insertDesc x (sortDesc xs)

/-- `AnalyticsEngine._get_top_events`.  `self.data.groupby('event_name')['event_count']`
selects the `event_count` column without a presence guard: if `event_name`
exists but `event_count` does not, pandas raises `KeyError` (embedded as
`Except.error`).  Otherwise: sum `event_count` per event name, sort
descending, keep the head `n`. -/
def get_top_events (event_name : Option (List String)) (event_count : Col)
    (n : ℕ) : Except String (List (String × ℚ)) :=
  match event_name with
  | none => .ok []
  | some names =>
    match event_count with
    | none => .error "KeyError: event_count"
    | some counts =>
      let keys := names.eraseDups
      let sums := keys.map (fun k =>
        (k, (((names.zip counts).filter (fun p => p.1 = k)).map (fun p => p.2)).sum))
      .ok ((sortDesc sums).take n)

/-- `AnalyticsEngine._compute_retention_indicators`:
`round(self._safe_mean('sessions') / max(self._safe_sum('users'), 1), 2)`.
Note the numerator is the MEAN of the sessions column. -/
def compute_retention_indicators (sessions users : Col) : ℚ :=
  round2 (safe_mean sessions / max (safe_sum users) 1)

/-- Modelled from the spec (claim wording, for comparison):
"the sum of the 'sessions' column divided by the maximum of the sum of the
'users' column and 1, rounded to 2 decimals". -/
def retention_indicator_spec (sessions users : Col) : ℚ :=
  round2 (safe_sum sessions / max (safe_sum users) 1)

/-- One row of the grouped (per-channel) aggregate frame, restricted to the
cells read by `_identify_top_performers` / `_calculate_performance_score`.
`Option` marks a cell that is absent (column missing) or `NaN`
(`pd.notna` false) — both skip the metric in the score. -/
structure PRow where
  channel : String
  users : Option ℚ
  conversion_rate : Option ℚ
  sessions_per_user : Option ℚ
  bounce_rate : Option ℚ
deriving DecidableEq

/-- Metric lookup `row[metric]` guarded by `metric in row.index and pd.notna(row[metric])`. -/
def rowMetric (r : PRow) : String → Option ℚ
  | "conversion_rate" => r.conversion_rate
  | "sessions_per_user" => r.sessions_per_user
  | "bounce_rate" => r.bounce_rate
  | _ => none

/-- `weights = {'conversion_rate': 0.4, 'sessions_per_user': 0.3, 'bounce_rate': -0.3}`. -/
def perfWeights : List (String × ℚ) :=
  [("conversion_rate", 4/10), ("sessions_per_user", 3/10), ("bounce_rate", -(3/10))]

/-- `AnalyticsEngine._calculate_performance_score`: fold over the weight
table; a positive weight contributes `m * w`, a negative one `(100 - m) * |w|`;
a metric that is absent or `NaN` is skipped. -/
def calculate_performance_score (r : PRow) : ℚ :=
  round2 (perfWeights.foldl (fun score p =>
    match rowMetric r p.1 with
    | some m => if (0 : ℚ) < p.2 then score + m * p.2 else score + (100 - m) * |p.2|
    | none => score) (0 : ℚ))

/-- `AnalyticsEngine._identify_top_performers`: the first 5 rows of the
users-sorted grouped frame, each annotated with `int(row.get('users', 0))`
and its performance score. -/
def identify_top_performers (rows : List PRow) : List (String × ℤ × ℚ) :=
  (rows.take 5).map (fun r => (r.channel, ⌊(r.users.getD 0 : ℚ)⌋, calculate_performance_score r))

/-- Mean of a list, as in `Series.mean()`. -/
def qmean (xs : List ℚ) : ℚ := xs.sum / xs.length

/-- Sample variance with `ddof = 1`, the pandas `Series.std()` default:
`Σ (x - mean)² / (n - 1)`.  (For `n = 1` pandas yields `NaN`; here the
division by zero yields the junk value `0`, and the strict comparison used
below is false in both readings, so the embeddings agree.) -/
def qvarSample (xs : List ℚ) : ℚ :=
  (xs.map (fun x => (x - qmean xs) ^ 2)).sum / ((xs.length : ℚ) - 1)

/-- Population variance (`ddof = 0`), as the claim's words prescribe:
`Σ (x - mean)² / n`. -/
def qvarPop (xs : List ℚ) : ℚ :=
  (xs.map (fun x => (x - qmean xs) ^ 2)).sum / (xs.length : ℚ)

/-- pandas `Series.std()` (ddof = 1): the square root of the sample variance. -/
noncomputable def seriesStd (xs : List ℚ) : ℝ := Real.sqrt ((qvarSample xs : ℚ) : ℝ)

/-- `AnalyticsEngine._identify_underperformers`: if the `bounce_rate` column
is present, keep the rows of the grouped frame (in its existing order) whose
bounce rate exceeds `mean + std`, record channel and `round(bounce_rate, 2)`,
and cap with `[:5]`; otherwise the empty list.  The grouped frame is passed
as the parallel lists of channel keys and bounce cells. -/
noncomputable def identify_underperformers (channels : List String)
    (bounce : Option (List ℚ)) : List (String × ℚ) :=
  match bounce with
  | none => []
  | some bs =>
    ((((channels.zip bs).filter (fun r =>
        @decide ((qmean bs : ℝ) + seriesStd bs < (r.2 : ℝ))
          (Classical.propDecidable _))).map
      (fun r => (r.1, round2 r.2))).take 5)

/-- Modelled from the spec (claim wording, for comparison): "exactly the
groups whose bounce_rate exceeds mean(bounce_rate) + stddev(bounce_rate)
computed as population statistics over the groups, capped to the 5 such
groups with the highest bounce_rate". -/
noncomputable def claim_underperformers (channels : List String)
    (bounce : Option (List ℚ)) : List (String × ℚ) :=
  match bounce with
  | none => []
  | some bs =>
    ((sortDesc ((channels.zip bs).filter (fun r =>
        @decide ((qmean bs : ℝ) + Real.sqrt ((qvarPop bs : ℚ) : ℝ) < (r.2 : ℝ))
          (Classical.propDecidable _)))).map
      (fun r => (r.1, round2 r.2))).take 5

/-- Decidable rational form of the filter condition of
`_identify_underperformers` (strictly above mean by more than the sample
standard deviation), proved equivalent below. -/
def underperfCond (bs : List ℚ) (b : ℚ) : Prop :=
  qmean bs < b ∧ qvarSample bs < (b - qmean bs) ^ 2

instance (bs : List ℚ) (b : ℚ) : Decidable (underperfCond bs b) := by
  unfold underperfCond; infer_instance

/-- `AnalyticsEngine.analyze_source_medium`, grouping-key selection:
`if 'source_medium' not in columns: (use 'source' if present, else return
{'error': 'No source/medium data available'}) else: use 'source_medium'`. -/
def analyze_source_medium_groupcol (cols : List String) : Except String String :=
  if "source_medium" ∉ cols then
    if "source" ∈ cols then .ok "source"
    else .error "No source/medium data available"
  else .ok "source_medium"

/-- `AnalyticsEngine._calculate_distribution`: absent metric column yields
`[]`; otherwise every grouped row gets `int(row[metric])` and
`round((row[metric] / total) * 100, 2) if total > 0 else 0`. -/
def calculate_distribution (channels : List String) (metric : Col) :
    List (String × ℤ × ℚ) :=
  match metric with
  | none => []
  | some vals =>
    (channels.zip vals).map (fun r =>
      (r.1, ⌊r.2⌋, if 0 < vals.sum then round2 (r.2 / vals.sum * 100) else 0))

/-- An insight `{category, type, title, description}` of
`DashboardGenerator._compile_insights` (the free-text `description`,
display formatting only, is elided). -/
structure Insight where
  category : String
  type : String
  title : String
deriving DecidableEq

/-- A recommendation of `DashboardGenerator._compile_recommendations`
(`description` and `expected_impact` are fixed display strings, elided). -/
structure Recommendation where
  priority : String
  category : String
  title : String
deriving DecidableEq

/-- The slice of `self.metrics` read by the two rule engines:
`source_medium_analysis['top_performers']` entries as (channel, users),
`source_medium_analysis['underperformers']` channels,
`summary.get('conversion_rate', 0)`, `summary.get('avg_bounce_rate', 0)` and
`user_behavior['engagement_metrics']['engagement_rate']`. -/
structure MetricsBundle where
  top_performers : List (String × ℚ)
  underperformers : List String
  conversion_rate : ℚ
  avg_bounce_rate : ℚ
  engagement_rate : ℚ

/-- The traffic insight appended when `top_performers` is truthy. -/
def trafficInsight : Insight :=
  ⟨"Traffic", "positive", "Top Traffic Source Identified"⟩

/-- The positive conversion insight (`conversion_rate > 3`). -/
def convPositiveInsight : Insight :=
  ⟨"Conversion", "positive", "Strong Conversion Rate"⟩

/-- The warning conversion insight (`elif conversion_rate > 0`). -/
def convWarningInsight : Insight :=
  ⟨"Conversion", "warning", "Conversion Rate Optimization Needed"⟩

/-- The critical engagement insight (`engagement_rate < 50`). -/
def engagementInsight : Insight :=
  ⟨"Engagement", "critical", "High Bounce Rate Alert"⟩

/-- `DashboardGenerator._compile_insights`: three independent appends; the
two conversion rules are an `if`/`elif` pair. -/
def compile_insights (m : MetricsBundle) : List Insight :=
  (if m.top_performers ≠ [] then [trafficInsight] else []) ++
  (if 3 < m.conversion_rate then [convPositiveInsight]
   else if 0 < m.conversion_rate then [convWarningInsight] else []) ++
  (if m.engagement_rate < 50 then [engagementInsight] else [])

/-- The traffic-acquisition recommendation naming the top channel. -/
def trafficRec (channel : String) : Recommendation :=
  ⟨"High", "Traffic Acquisition", "Increase investment in " ++ channel⟩

/-- The conversion-optimization recommendation (`conversion_rate < 3`). -/
def convRec : Recommendation :=
  ⟨"High", "Conversion Optimization", "Implement Conversion Rate Optimization"⟩

/-- The bounce-rate recommendation (`avg_bounce_rate > 60`). -/
def bounceRec : Recommendation :=
  ⟨"Medium", "User Experience", "Reduce Bounce Rate"⟩

/-- The underperformer-audit recommendation (`underperformers` truthy). -/
def underperformerRec : Recommendation :=
  ⟨"Medium", "Channel Optimization", "Review Underperforming Channels"⟩

/-- `DashboardGenerator._compile_recommendations`: four independent appends. -/
def compile_recommendations (m : MetricsBundle) : List Recommendation :=
  (match m.top_performers with
   | [] => []
   | t :: _ => [trafficRec t.1]) ++
  (if m.conversion_rate < 3 then [convRec] else []) ++
  (if 60 < m.avg_bounce_rate then [bounceRec] else []) ++
  (if m.underperformers ≠ [] then [underperformerRec] else [])

/-! ## Helper lemmas -/

/-- Rounding to 2 decimals moves a rational by at most `1/200`. -/
theorem abs_round2_sub (x : ℚ) : |round2 x - x| ≤ 1 / 200 := by
  unfold round2
  have h := abs_sub_round (x * 100)
  rw [abs_sub_comm] at h
  have hrw : (round (x * 100) : ℚ) / 100 - x = ((round (x * 100) : ℚ) - x * 100) / 100 := by
    ring
  rw [hrw, abs_div, show |(100 : ℚ)| = 100 from by norm_num,
    div_le_iff₀ (by norm_num : (0 : ℚ) < 100)]
  linarith

/-- `round2` preserves nonnegativity. -/
theorem round2_nonneg (x : ℚ) (h : 0 ≤ x) : 0 ≤ round2 x := by
  unfold round2
  have : (0 : ℤ) ≤ round (x * 100) := by
    rw [round_eq]; exact Int.floor_nonneg.mpr (by linarith)
  positivity

/-- `round2` preserves the upper bound `100`. -/
theorem round2_le_100 (x : ℚ) (h : x ≤ 100) : round2 x ≤ 100 := by
  unfold round2
  have : round (x * 100) ≤ 10000 := by
    rw [round_eq]
    have h2 : ⌊x * 100 + 1 / 2⌋ ≤ ⌊(20001 : ℚ) / 2⌋ := Int.floor_mono (by linarith)
    norm_num at h2
    omega
  rw [div_le_iff₀ (by norm_num : (0 : ℚ) < 100)]
  exact_mod_cast this

/-- Summing a pointwise-`c`-close pair of maps keeps the sums
`length * c`-close. -/
theorem sum_map_close (l : List ℚ) (f g : ℚ → ℚ) (c : ℚ)
    (h : ∀ x ∈ l, |f x - g x| ≤ c) :
    |(l.map f).sum - (l.map g).sum| ≤ l.length * c := by
  induction l with
  | nil => simp
  | cons a t ih =>
    have ha := h a (List.mem_cons_self a t)
    have ht := ih (fun x hx => h x (List.mem_cons_of_mem a hx))
    simp only [List.map_cons, List.sum_cons, List.length_cons]
    have : f a + (t.map f).sum - (g a + (t.map g).sum)
        = (f a - g a) + ((t.map f).sum - (t.map g).sum) := by ring
    rw [this]
    calc |(f a - g a) + ((t.map f).sum - (t.map g).sum)|
        ≤ |f a - g a| + |(t.map f).sum - (t.map g).sum| := abs_add _ _
      _ ≤ c + t.length * c := by linarith
      _ = (t.length + 1) * c := by ring
      _ = ((t.length + 1 : ℕ) : ℚ) * c := by push_cast; ring

/-- Distributing a sum over shares of a total. -/
theorem sum_map_div_mul (l : List ℚ) (T : ℚ) :
    (l.map (fun v => v / T * 100)).sum = l.sum / T * 100 := by
  induction l with
  | nil => simp
  | cons a t ih => simp [ih, add_div, add_mul]

/-- In a nonnegative list with zero sum, every group-restricted sub-sum is
zero. -/
theorem sum_filter_eq_zero (rows : List SRow) (k : String)
    (hnn : ∀ r ∈ rows, 0 ≤ r.sessions)
    (hzero : (rows.map (fun r => r.sessions)).sum = 0) :
    groupSessions rows k = 0 := by
  unfold groupSessions
  apply List.sum_eq_zero
  intro x hx
  obtain ⟨r, hr, rfl⟩ := List.mem_map.mp hx
  have hrrows : r ∈ rows := List.mem_of_mem_filter hr
  exact List.all_zero_of_le_zero_le_of_sum_eq_zero
    (by intro y hy; obtain ⟨s, hs, rfl⟩ := List.mem_map.mp hy; exact hnn s hs)
    hzero (List.mem_map.mpr ⟨r, hrrows, rfl⟩)

/-- The sample variance (junk value `0` at lists of length `< 2`) is
nonnegative. -/
theorem qvarSample_nonneg (xs : List ℚ) : 0 ≤ qvarSample xs := by
  unfold qvarSample
  match xs with
  | [] => simp
  | [b] => simp [qmean]
  | a :: b :: t =>
    apply div_nonneg
    · exact List.sum_nonneg (by
        intro x hx; obtain ⟨y, _, rfl⟩ := List.mem_map.mp hx; positivity)
    · have : (2 : ℚ) ≤ ((a :: b :: t).length : ℚ) := by
        simp only [List.length_cons]; push_cast; linarith [Nat.cast_nonneg (α := ℚ) t.length]
      linarith

/-- The population variance is nonnegative. -/
theorem qvarPop_nonneg (xs : List ℚ) : 0 ≤ qvarPop xs := by
  unfold qvarPop
  apply div_nonneg
  · exact List.sum_nonneg (by
      intro x hx; obtain ⟨y, _, rfl⟩ := List.mem_map.mp hx; positivity)
  · positivity

/-- Strictly exceeding `m + √v` is, for `0 ≤ v`, the same as exceeding `m`
with squared margin above `v`. -/
theorem lt_add_sqrt_iff (m v b : ℚ) (hv : 0 ≤ v) :
    ((m : ℝ) + Real.sqrt ((v : ℚ) : ℝ) < (b : ℝ)) ↔ (m < b ∧ v < (b - m) ^ 2) := by
  constructor
  · intro h
    have h0 : (0 : ℝ) ≤ Real.sqrt ((v : ℚ) : ℝ) := Real.sqrt_nonneg _
    have hm : (m : ℝ) < (b : ℝ) := by linarith
    have hs : Real.sqrt ((v : ℚ) : ℝ) < (b : ℝ) - (m : ℝ) := by linarith
    have hv2 := (Real.sqrt_lt' (by linarith)).mp hs
    refine ⟨by exact_mod_cast hm, ?_⟩
    have : ((v : ℚ) : ℝ) < (((b - m) ^ 2 : ℚ) : ℝ) := by push_cast; convert hv2 using 2
    exact_mod_cast this
  · rintro ⟨h1, h2⟩
    have hb : (0 : ℝ) < (b : ℝ) - (m : ℝ) := by exact_mod_cast sub_pos.mpr h1
    have hcast : ((v : ℚ) : ℝ) < ((b : ℝ) - (m : ℝ)) ^ 2 := by
      have := (Rat.cast_lt (K := ℝ)).mpr h2
      push_cast at this
      convert this using 2
    have := (Real.sqrt_lt' hb).mpr hcast
    linarith

/-- The classical-real filter of `_identify_underperformers` coincides with
the decidable rational condition `underperfCond`. -/
theorem identify_underperformers_eq (channels : List String) (bs : List ℚ) :
    identify_underperformers channels (some bs) =
      (((channels.zip bs).filter (fun r => decide (underperfCond bs r.2))).map
        (fun r => (r.1, round2 r.2))).take 5 := by
  show ((((channels.zip bs).filter _).map (fun r => (r.1, round2 r.2))).take 5) = _
  congr 2
  apply List.filter_congr
  intro x _
  apply decide_eq_decide.mpr
  unfold seriesStd
  rw [lt_add_sqrt_iff (qmean bs) (qvarSample bs) x.2 (qvarSample_nonneg bs)]
  unfold underperfCond
  tauto

/-- Decidable rational form of the claim-worded (population) condition. -/
def claimCond (bs : List ℚ) (b : ℚ) : Prop :=
  qmean bs < b ∧ qvarPop bs < (b - qmean bs) ^ 2

instance (bs : List ℚ) (b : ℚ) : Decidable (claimCond bs b) := by
  unfold claimCond; infer_instance

/-- The claim-worded underperformer list, in decidable form. -/
theorem claim_underperformers_eq (channels : List String) (bs : List ℚ) :
    claim_underperformers channels (some bs) =
      ((sortDesc ((channels.zip bs).filter (fun r => decide (claimCond bs r.2)))).map
        (fun r => (r.1, round2 r.2))).take 5 := by
  show (((sortDesc ((channels.zip bs).filter _)).map (fun r => (r.1, round2 r.2))).take 5) = _
  congr 3
  apply List.filter_congr
  intro x _
  apply decide_eq_decide.mpr
  rw [lt_add_sqrt_iff (qmean bs) (qvarPop bs) x.2 (qvarPop_nonneg bs)]
  unfold claimCond
  tauto

/-! ## Claim theorems -/

/-- Claim C2: the claim says no computation raises on an absent column, in
particular for a dataset with an `event_name` column but no `event_count`
column.  The code is the outlier: `_get_top_events` selects
`['event_count']` unguarded and pandas raises `KeyError` there, contradicting
the null-safe design used everywhere else (`_safe_sum`, `row.get`) and the
spec's error taxonomy.  This theorem evaluates the embedded code at the
failing input. -/
theorem get_top_events_keyerror :
    get_top_events (some ["click"]) none 10 = .error "KeyError: event_count" := rfl

/-- Claim C4, counterexample: the code divides the MEAN of `sessions` (not
the total) by `max(total_users, 1)`.  With sessions `[2, 4]` and users
`[1, 1]` the code yields `3/2` while the claim's formula yields `3`. -/
theorem retention_counterexample :
    compute_retention_indicators (some [2, 4]) (some [1, 1]) = 3 / 2 ∧
    retention_indicator_spec (some [2, 4]) (some [1, 1]) = 3 := by
  constructor <;>
    norm_num [compute_retention_indicators, retention_indicator_spec, safe_mean,
      safe_sum, round2, round_eq]

/-- Claim C4 (amended): the retention indicator equals the MEAN of the
`sessions` column divided by `max(total_users, 1)`, rounded to 2 decimals.
(The nonemptiness hypothesis keeps the embedding inside the region where
pandas `mean` is a number rather than `NaN`.) -/
theorem retention_amended (xs ys : List ℚ) (h : xs ≠ []) :
    compute_retention_indicators (some xs) (some ys) =
      round2 ((xs.sum / xs.length) / max ys.sum 1) := by
  simp [compute_retention_indicators, safe_mean, safe_sum]

/-- Claim C4 witness. -/
theorem retention_amended_witness :
    compute_retention_indicators (some [2, 4]) (some [1, 1]) =
      round2 (([2, 4] : List ℚ).sum / (([2, 4] : List ℚ).length : ℚ) /
        max ([1, 1] : List ℚ).sum 1) :=
  retention_amended [2, 4] [1, 1] (by simp)

/-- Claim C6: grouping-key selection prefers `source_medium`, falls back to
`source`, and with neither present returns the explicit
`No source/medium data available` marker instead of raising. -/
theorem groupcol_selection (cols : List String) :
    ("source_medium" ∈ cols →
      analyze_source_medium_groupcol cols = .ok "source_medium") ∧
    ("source_medium" ∉ cols → "source" ∈ cols →
      analyze_source_medium_groupcol cols = .ok "source") ∧
    ("source_medium" ∉ cols → "source" ∉ cols →
      analyze_source_medium_groupcol cols = .error "No source/medium data available") := by
  refine ⟨fun h1 => ?_, fun h1 h2 => ?_, fun h1 h2 => ?_⟩
  · simp [analyze_source_medium_groupcol, h1]
  · simp [analyze_source_medium_groupcol, h1, h2]
  · simp [analyze_source_medium_groupcol, h1, h2]

/-- Claim C6 witness. -/
theorem groupcol_selection_witness :
    analyze_source_medium_groupcol ["source"] = .ok "source" :=
  (groupcol_selection ["source"]).2.1 (by decide) (by decide)

/-- Claim C1, counterexample: with the single row
`{source: "a", sessions: 0, conversions: 0}` the dataset-wide totals are `0`
and the summary ratios are `0` as claimed, but the per-group
`conversion_rate` of group `"a"` is `NaN` (embedded `none`) — produced by
`grouped['sessions'].replace(0, np.nan)` — and not `0`. -/
theorem group_rate_counterexample :
    group_conversion_rate [⟨"a", 0, 0⟩] "a" = none ∧
    group_conversion_rate [⟨"a", 0, 0⟩] "a" ≠ some 0 ∧
    calculate_pages_per_session (some [0]) (some [0]) = 0 ∧
    calculate_conversion_rate (some [0]) (some [0]) = 0 := by
  refine ⟨?_, ?_, ?_, ?_⟩ <;>
    simp [group_conversion_rate, groupSessions, groupConversions,
      calculate_pages_per_session, calculate_conversion_rate]

/-- Claim C1 (amended): when the total of (nonnegative) `sessions` is `0`,
the summary `pages_per_session` and `conversion_rate` are `0`, while every
per-group `conversion_rate` is undefined (`NaN`, embedded `none`) rather
than `0` — still never a fault. -/
theorem zero_sessions_amended (rows : List SRow) (pv cv : Col)
    (hnn : ∀ r ∈ rows, 0 ≤ r.sessions)
    (hzero : (rows.map (fun r => r.sessions)).sum = 0) :
    calculate_pages_per_session pv (some (rows.map (fun r => r.sessions))) = 0 ∧
    calculate_conversion_rate cv (some (rows.map (fun r => r.sessions))) = 0 ∧
    ∀ k, group_conversion_rate rows k = none := by
  refine ⟨?_, ?_, fun k => ?_⟩
  · cases pv <;> simp [calculate_pages_per_session, hzero]
  · cases cv <;> simp [calculate_conversion_rate, hzero]
  · simp [group_conversion_rate, sum_filter_eq_zero rows k hnn hzero]

/-- Claim C1 witness. -/
theorem zero_sessions_amended_witness :
    calculate_pages_per_session (some [(0 : ℚ)]) (some [0]) = 0 ∧
    group_conversion_rate [⟨"b", 0, 0⟩] "b" = none :=
  ⟨by
    have h := zero_sessions_amended [⟨"b", 0, 0⟩] (some [0]) (some [0])
      (by intro r hr; simp at hr; simp [hr]) (by simp)
    simpa using h.1,
   (zero_sessions_amended [⟨"b", 0, 0⟩] (some [0]) (some [0])
      (by intro r hr; simp at hr; simp [hr]) (by simp)).2.2 "b"⟩

/-- Claim C5: every entry of the top-performer list carries
`performance_score = round2(0.4·conversion_rate + 0.3·sessions_per_user
+ 0.3·(100 − bounce_rate))`, with an absent (or `NaN`) metric contributing
`0`; a row with all three metrics absent scores `0`. -/
theorem performance_score_formula (rows : List PRow) :
    identify_top_performers rows = (rows.take 5).map (fun r =>
      (r.channel, ⌊(r.users.getD 0 : ℚ)⌋,
        round2 (r.conversion_rate.elim 0 (fun m => m * (4 / 10)) +
          r.sessions_per_user.elim 0 (fun m => m * (3 / 10)) +
          r.bounce_rate.elim 0 (fun m => (100 - m) * (3 / 10))))) ∧
    ∀ r : PRow, r.conversion_rate = none → r.sessions_per_user = none →
      r.bounce_rate = none → calculate_performance_score r = 0 := by
  constructor
  · unfold identify_top_performers
    congr 1
    funext r
    have hs : calculate_performance_score r =
        round2 (r.conversion_rate.elim 0 (fun m => m * (4 / 10)) +
          r.sessions_per_user.elim 0 (fun m => m * (3 / 10)) +
          r.bounce_rate.elim 0 (fun m => (100 - m) * (3 / 10))) := by
      unfold calculate_performance_score perfWeights rowMetric
      rcases r.conversion_rate with _ | c <;> rcases r.sessions_per_user with _ | s <;>
        rcases r.bounce_rate with _ | b <;>
        · simp only [List.foldl_cons, List.foldl_nil, Option.elim]
          norm_num [abs_of_nonpos]
          try ring_nf
    rw [hs]
  · intro r h1 h2 h3
    unfold calculate_performance_score perfWeights rowMetric
    simp only [h1, h2, h3, List.foldl_cons, List.foldl_nil]
    norm_num [round2]

/-- Claim C5 witness (for the all-absent clause). -/
theorem performance_score_witness :
    calculate_performance_score ⟨"x", none, none, none, none⟩ = 0 :=
  (performance_score_formula []).2 ⟨"x", none, none, none, none⟩ rfl rfl rfl

/-- Claim C8: the positive conversion insight is emitted exactly when
`conversion_rate > 3`, the warning insight exactly when
`0 < conversion_rate ≤ 3`, never both, and neither at `0`. -/
theorem conversion_insight_rules (m : MetricsBundle) :
    (convPositiveInsight ∈ compile_insights m ↔ 3 < m.conversion_rate) ∧
    (convWarningInsight ∈ compile_insights m ↔
      (0 < m.conversion_rate ∧ m.conversion_rate ≤ 3)) ∧
    ¬(convPositiveInsight ∈ compile_insights m ∧
      convWarningInsight ∈ compile_insights m) ∧
    (m.conversion_rate = 0 → convPositiveInsight ∉ compile_insights m ∧
      convWarningInsight ∉ compile_insights m) := by
  unfold compile_insights
  split_ifs with h1 h2 h3 h4 <;>
    simp_all [trafficInsight, convPositiveInsight, convWarningInsight,
      engagementInsight] <;>
    intro hz <;> linarith

/-- Claim C8 witness (instantiating the zero-rate clause). -/
theorem conversion_insight_rules_witness :
    convPositiveInsight ∉ compile_insights ⟨[], [], 0, 0, 80⟩ ∧
    convWarningInsight ∉ compile_insights ⟨[], [], 0, 0, 80⟩ :=
  (conversion_insight_rules ⟨[], [], 0, 0, 80⟩).2.2.2 rfl

/-- Claim C10: one invocation of the rule engine yields at most 3 insights
and at most 4 recommendations; every insight severity is `positive`,
`warning` or `critical`, and every recommendation priority is `High` or
`Medium`. -/
theorem rule_engine_bounds (m : MetricsBundle) :
    (compile_insights m).length ≤ 3 ∧
    (compile_recommendations m).length ≤ 4 ∧
    (∀ i ∈ compile_insights m,
      i.type = "positive" ∨ i.type = "warning" ∨ i.type = "critical") ∧
    (∀ r ∈ compile_recommendations m,
      r.priority = "High" ∨ r.priority = "Medium") := by
  refine ⟨?_, ?_, ?_, ?_⟩
  · unfold compile_insights
    split_ifs <;> simp
  · unfold compile_recommendations
    rcases m.top_performers with _ | ⟨t, ts⟩ <;> split_ifs <;> simp
  · intro i hi
    have hsub : i ∈ [trafficInsight, convPositiveInsight, convWarningInsight,
        engagementInsight] := by
      unfold compile_insights at hi
      rcases List.mem_append.mp hi with h | h
      · rcases List.mem_append.mp h with h' | h'
        · split_ifs at h' <;> simp_all
        · split_ifs at h' <;> simp_all
      · split_ifs at h <;> simp_all
    fin_cases hsub <;> decide
  · intro r hr
    unfold compile_recommendations at hr
    rcases List.mem_append.mp hr with h | h
    · rcases List.mem_append.mp h with h' | h'
      · rcases List.mem_append.mp h' with h2 | h2
        · rcases htp : m.top_performers with _ | ⟨t, ts⟩ <;> rw [htp] at h2 <;>
            simp_all [trafficRec]
        · split_ifs at h2 <;> simp_all [convRec]
      · split_ifs at h' <;> simp_all [bounceRec]
    · split_ifs at h <;> simp_all [underperformerRec]

/-- Claim C10 witness. -/
theorem rule_engine_bounds_witness :
    (compile_insights ⟨[("g", 5)], ["x"], 1, 70, 40⟩).length ≤ 3 ∧
    (trafficInsight.type = "positive" ∨ trafficInsight.type = "warning" ∨
      trafficInsight.type = "critical") :=
  ⟨(rule_engine_bounds ⟨[("g", 5)], ["x"], 1, 70, 40⟩).1,
   (rule_engine_bounds ⟨[("g", 5)], ["x"], 1, 70, 40⟩).2.2.1 trafficInsight
     (by simp [compile_insights])⟩

/-- Claim C7: with the metric column present and a positive total, the
channel-distribution percentages sum to `100` up to the accumulated
rounding epsilon (`1/200` per entry); with a zero total every percentage
is `0`. -/
theorem distribution_sum (channels : List String) (vals : List ℚ)
    (hlen : channels.length = vals.length) :
    (0 < vals.sum →
      |((calculate_distribution channels (some vals)).map (fun p => p.2.2)).sum - 100|
        ≤ (vals.length : ℚ) * (1 / 200)) ∧
    (vals.sum = 0 →
      ∀ p ∈ calculate_distribution channels (some vals), p.2.2 = 0) := by
  constructor
  · intro hpos
    have hmap : (calculate_distribution channels (some vals)).map (fun p => p.2.2)
        = vals.map (fun v => round2 (v / vals.sum * 100)) := by
      unfold calculate_distribution
      rw [List.map_map]
      have hc : ((fun p : String × ℤ × ℚ => p.2.2) ∘
          (fun r : String × ℚ =>
            (r.1, ⌊r.2⌋, if 0 < vals.sum then round2 (r.2 / vals.sum * 100) else 0)))
          = (fun v : ℚ => round2 (v / vals.sum * 100)) ∘ Prod.snd := by
        funext r
        simp [hpos]
      rw [hc, ← List.map_map, List.map_snd_zip channels vals (le_of_eq hlen.symm)]
    rw [hmap]
    have h100 : (vals.map (fun v => v / vals.sum * 100)).sum = 100 := by
      rw [sum_map_div_mul, div_mul_eq_mul_div, mul_comm, mul_div_assoc,
        div_self (ne_of_gt hpos), mul_one]
    calc |(vals.map (fun v => round2 (v / vals.sum * 100))).sum - 100|
        = |(vals.map (fun v => round2 (v / vals.sum * 100))).sum
            - (vals.map (fun v => v / vals.sum * 100)).sum| := by rw [h100]
      _ ≤ vals.length * (1 / 200) :=
          sum_map_close vals _ _ _ (fun x _ => abs_round2_sub _)
  · intro hzero p hp
    unfold calculate_distribution at hp
    obtain ⟨r, hr, rfl⟩ := List.mem_map.mp hp
    simp [hzero]

/-- Claim C7 witness. -/
theorem distribution_sum_witness :
    |((calculate_distribution ["a", "b"] (some [1, 3])).map (fun p => p.2.2)).sum - 100|
      ≤ (([1, 3] : List ℚ).length : ℚ) * (1 / 200) :=
  (distribution_sum ["a", "b"] [1, 3] rfl).1 (by norm_num)

/-- Claim C9: with nonnegative metric values (the dataset invariant), every
channel-distribution percentage lies in `[0, 100]`. -/
theorem distribution_range (channels : List String) (vals : List ℚ)
    (hnn : ∀ v ∈ vals, 0 ≤ v) :
    ∀ p ∈ calculate_distribution channels (some vals), 0 ≤ p.2.2 ∧ p.2.2 ≤ 100 := by
  intro p hp
  unfold calculate_distribution at hp
  obtain ⟨r, hr, rfl⟩ := List.mem_map.mp hp
  by_cases hT : 0 < vals.sum
  · have hrv : r.2 ∈ vals := (List.of_mem_zip hr).2
    have h0 : 0 ≤ r.2 := hnn _ hrv
    have hle : r.2 ≤ vals.sum := List.single_le_sum hnn _ hrv
    have harg0 : 0 ≤ r.2 / vals.sum * 100 := by positivity
    have harg100 : r.2 / vals.sum * 100 ≤ 100 := by
      rw [div_mul_eq_mul_div, div_le_iff₀ hT]
      linarith
    simp only [hT, if_true]
    exact ⟨round2_nonneg _ harg0, round2_le_100 _ harg100⟩
  · simp only [hT, if_false]
    norm_num

/-- Claim C9 witness. -/
theorem distribution_range_witness :
    0 ≤ (("a", (1 : ℤ), (25 : ℚ)) : String × ℤ × ℚ).2.2 ∧
      (("a", (1 : ℤ), (25 : ℚ)) : String × ℤ × ℚ).2.2 ≤ 100 :=
  distribution_range ["a", "b"] [1, 3] (by norm_num) ("a", 1, 25)
    (by norm_num [calculate_distribution, round2, round_eq])

/-- Claim C3, counterexample: with bounce rates `[0, 3, 5]` the population
threshold is `8/3 + √(38/9) ≈ 4.72`, so the claim's rule selects the group
with bounce `5`; but pandas `Series.std()` uses the sample standard
deviation (`ddof = 1`), giving threshold `8/3 + √(19/3) ≈ 5.18`, and the
code returns the empty list. -/
theorem underperformers_counterexample :
    identify_underperformers ["a", "b", "c"] (some [0, 3, 5]) = [] ∧
    claim_underperformers ["a", "b", "c"] (some [0, 3, 5]) = [("c", 5)] := by
  constructor
  · rw [identify_underperformers_eq]
    norm_num [underperfCond, qvarSample, qmean, List.filter]
  · rw [claim_underperformers_eq]
    norm_num [claimCond, qvarPop, qmean, List.filter, sortDesc, insertDesc,
      round2, round_eq]

/-- Claim C3 (amended): the underperformer list is empty when the
`bounce_rate` column is absent and never exceeds 5 entries; with the column
present it consists of the first 5 groups, in the grouped list's order,
whose bounce rate strictly exceeds `mean + sample standard deviation`
(`ddof = 1`, the pandas default — not population statistics; with a single
group the standard deviation is `NaN` and nothing qualifies), each recorded
with its bounce rate rounded to 2 decimals. -/
theorem underperformers_amended (channels : List String)
    (bounce : Option (List ℚ)) :
    (bounce = none → identify_underperformers channels bounce = []) ∧
    (identify_underperformers channels bounce).length ≤ 5 ∧
    (∀ bs, bounce = some bs →
      identify_underperformers channels bounce =
        (((channels.zip bs).filter (fun r => decide (underperfCond bs r.2))).map
          (fun r => (r.1, round2 r.2))).take 5) := by
  refine ⟨fun h => ?_, ?_, fun bs h => ?_⟩
  · subst h; rfl
  · cases bounce with
    | none => show (List.length []) ≤ 5; simp
    | some bs =>
      rw [identify_underperformers_eq]
      exact List.length_take_le _ _
  · subst h
    exact identify_underperformers_eq channels bs

/-- Claim C3 witness. -/
theorem underperformers_amended_witness :
    identify_underperformers ["a"] none = [] ∧
    identify_underperformers ["a", "b"] (some [1, 2]) =
      ((((["a", "b"] : List String).zip ([1, 2] : List ℚ)).filter
          (fun r => decide (underperfCond [1, 2] r.2))).map
        (fun r => (r.1, round2 r.2))).take 5 :=
  ⟨(underperformers_amended ["a"] none).1 rfl,
   (underperformers_amended ["a", "b"] (some [1, 2])).2.2 [1, 2] rfl⟩

end GADash
